import Mathlib

/-!
Verification of the build / test / provisioning scripts of `sns-kongswap-adaptor`
(`scripts/build.py`, `scripts/test.py`, `scripts/common.py`) against their
natural-language specification.

The Python scripts are shallowly embedded as pure Lean functions over explicit
world states:
* the filesystem is a list of existing file paths (plus explicit mtimes where
  the code compares them);
* the network is the set of URLs whose retrieval would succeed, and every
  attempted URL retrieval is recorded in an explicit fetch trace;
* `sys.exit(1)`-style fatal errors become `Except String` values carrying the
  printed error message verbatim.
-/

set_option autoImplicit false

namespace KongswapScripts

/-! ## RebuildDecision — `needs_rebuild` from `scripts/test.py` (lines 10–27)

The recursive walk `source_dir.rglob(...)` is modelled by the list of
filesystem entries it yields: each entry keeps its base name (what the glob
pattern is matched against) and its modification time (`stat().st_mtime`,
compared with `>` in the code; we use `Int` timestamps).  The target artifact
is `none` when `target_file.exists()` is false, otherwise `some` of its mtime.
-/

structure SrcFile where
  name : String
  mtime : Int
  deriving DecidableEq, Repr

/-- Whether `s` ends with `t` — the test performed on a file name by the
glob pattern of `source_dir.rglob("*.rs")`.  Stated on the reversed
character lists so that it evaluates inside the kernel. -/
def strEndsWith (s t : String) : Bool := t.data.reverse.isPrefixOf s.data.reverse

/-- `needs_rebuild(source_dir, target_file)`:
    * target missing → `true`;
    * else `true` iff some entry matching glob `*.rs` — i.e. whose name ends
      in `.rs` — is strictly newer than the target, or some entry named
      `Cargo.toml` is strictly newer than the target.
    The two early-returning `for` loops of the source are the two `List.any`
    disjuncts. -/
def needs_rebuild (source_dir : List SrcFile) (target_mtime : Option Int) : Bool :=
  match target_mtime with
  | none => true
  | some tm =>
    (source_dir.any fun f => strEndsWith f.name ".rs" && decide (f.mtime > tm)) ||
    (source_dir.any fun f => f.name == "Cargo.toml" && decide (f.mtime > tm))

/-- C2: `needs_rebuild` returns true when the target does not exist; with an
existing target it returns true iff some `*.rs` or `Cargo.toml` entry under
the source tree is strictly newer than the target, and in particular a tree
in which every entry's mtime is `≤` the target's (equality included) does not
trigger a rebuild. -/
theorem c2_needs_rebuild_spec (files : List SrcFile) (tm : Int) :
    needs_rebuild files none = true ∧
    (needs_rebuild files (some tm) = true ↔
      ∃ f ∈ files, (strEndsWith f.name ".rs" ∨ f.name = "Cargo.toml") ∧ tm < f.mtime) ∧
    ((∀ f ∈ files, f.mtime ≤ tm) → needs_rebuild files (some tm) = false) := by
  have hiff : needs_rebuild files (some tm) = true ↔
      ∃ f ∈ files, (strEndsWith f.name ".rs" ∨ f.name = "Cargo.toml") ∧ tm < f.mtime := by
    simp only [needs_rebuild, Bool.or_eq_true, List.any_eq_true, Bool.and_eq_true,
      decide_eq_true_eq, beq_iff_eq, gt_iff_lt]
    constructor
    · rintro (⟨f, hf, hrs, hlt⟩ | ⟨f, hf, hct, hlt⟩)
      · exact ⟨f, hf, Or.inl hrs, hlt⟩
      · exact ⟨f, hf, Or.inr hct, hlt⟩
    · rintro ⟨f, hf, hrs | hct, hlt⟩
      · exact Or.inl ⟨f, hf, hrs, hlt⟩
      · exact Or.inr ⟨f, hf, hct, hlt⟩
  refine ⟨rfl, hiff, fun hall => ?_⟩
  by_contra hne
  have : needs_rebuild files (some tm) = true := by
    cases h : needs_rebuild files (some tm) with
    | false => exact absurd h hne
    | true => rfl
  obtain ⟨f, hf, _, hlt⟩ := hiff.mp this
  exact absurd (hall f hf) (not_le.mpr hlt)

/-- Witness for C2 at a concrete source tree: one `lib.rs` entry whose mtime
equals the target's does not trigger a rebuild. -/
theorem c2_needs_rebuild_spec_witness :
    (∀ f ∈ [SrcFile.mk "lib.rs" 5], f.mtime ≤ (5 : Int)) ∧
    needs_rebuild [SrcFile.mk "lib.rs" 5] (some 5) = false :=
  ⟨by decide, (c2_needs_rebuild_spec [SrcFile.mk "lib.rs" 5] 5).2.2 (by decide)⟩

/-! ## Project paths (`get_project_paths` in `scripts/common.py`)

The CI/local switch only changes which absolute prefixes are used; every
claim is independent of the concrete prefix, so we fix the local-development
layout.  Paths are plain strings.
-/

def projectDir : String := "/home/user/sns-kongswap-adaptor"
def icDir : String := "/home/user/ic"
def artifactsDir : String := projectDir ++ "/ic-artifacts"
def configPath : String := projectDir ++ "/config.json"
def revisionsPath : String := icDir ++ "/mainnet-canister-revisions.json"

/-! ## JSON documents

Parsed JSON values, as produced by `json.load`.  Python membership tests and
subscripts on dict values become `Json.getKey`; a key lookup on a non-object
value yields `none` (the only documents the manifest and revision-index
formats admit are objects, and for those the semantics agrees with the
Python `in` / `[]` operators).
-/

inductive Json where
  | null
  | bool (b : Bool)
  | num (n : Int)
  | str (s : String)
  | arr (elems : List Json)
  | obj (fields : List (String × Json))
  deriving Repr

def Json.getKey : Json → String → Option Json
  | .obj fields, k => fields.lookup k
  | _, _ => none

/-- Python truthiness of a JSON value (`if not revision: ...`). -/
def Json.falsy : Json → Bool
  | .null => true
  | .bool b => !b
  | .num n => n == 0
  | .str s => s == ""
  | .arr xs => xs.isEmpty
  | .obj fs => fs.isEmpty

/-- Rendering of a JSON value inside a Python f-string.  Strings render as
themselves; the remaining cases mirror `str()` of the corresponding Python
value (container cases abbreviated — no claim exercises them). -/
def Json.interp : Json → String
  | .null => "None"
  | .bool true => "True"
  | .bool false => "False"
  | .num n => toString n
  | .str s => s
  | .arr _ => "[...]"
  | .obj _ => "\x7b...\x7d"

/-! ## World state

`files` is the set of paths that currently exist on disk, `netOk` the set of
URLs whose retrieval would succeed; `revisionsFile` / `configFile` are
`none` when the file is absent, `some (.error e)` when reading/parsing it
raises, and `some (.ok json)` when it parses.
-/

structure World where
  icDirExists : Bool
  revisionsFile : Option (Except String Json)
  configFile : Option (Except String Json)
  files : List String
  netOk : List String

/-! ## ArtifactManifest — `load_config` from `scripts/common.py` (lines 189–222)

Error values carry the message printed just before `sys.exit(1)`; the quote
characters of the source messages are written with `\x27` escapes.
-/

def msgConfigNotFound : String := "Error: Configuration file not found: " ++ configPath
def msgConfigRead (e : String) : String := "Error reading config.json: " ++ e
def msgMissingDependencies : String :=
  "Error: Missing \x27dependencies\x27 section in config.json"
def msgMissingKongBackend : String :=
  "Error: Missing \x27kong_backend\x27 configuration in dependencies"
def msgMissingKey (k : String) : String :=
  "Error: Missing required key \x27" ++ k ++ "\x27 in kong_backend configuration"

/-- `load_config(paths)`: read and parse `config.json`, then validate the
`dependencies` section, the `kong_backend` entry, and its `version` and
`url_template` keys (checked in that order), returning the whole parsed
document on success. -/
def load_config (w : World) : Except String Json :=
  match w.configFile with
  | none => .error msgConfigNotFound
  | some (.error e) => .error (msgConfigRead e)
  | some (.ok config) =>
    match config.getKey "dependencies" with
    | none => .error msgMissingDependencies
    | some deps =>
      match deps.getKey "kong_backend" with
      | none => .error msgMissingKongBackend
      | some kong_config =>
        if (kong_config.getKey "version").isNone then
          .error (msgMissingKey "version")
        else if (kong_config.getKey "url_template").isNone then
          .error (msgMissingKey "url_template")
        else
          .ok config

/-- Helper: a string that does not start with the generic read-error prefix is
distinct from every generic read-error message. -/
theorem ne_msgConfigRead_of_not_prefix (s : String)
    (h : ¬ ("Error reading config.json: ".data <+: s.data)) (e : String) :
    s ≠ msgConfigRead e := by
  intro hs
  apply h
  rw [hs]
  show "Error reading config.json: ".data <+: ("Error reading config.json: " ++ e).data
  rw [String.data_append]
  exact List.prefix_append _ _

/-- C8: a manifest missing the `dependencies` section — and likewise one
missing the `kong_backend` entry, or a required `version` or `url_template`
key inside it — makes `load_config` fail with a configuration error naming
exactly the absent section or key; the four messages are pairwise distinct,
each contains the name of what is missing, and none of them is a generic
parse-failure message. -/
theorem c8_load_config_errors :
    (∀ w cfg, w.configFile = some (.ok cfg) → cfg.getKey "dependencies" = none →
      load_config w = .error msgMissingDependencies) ∧
    (∀ w cfg deps, w.configFile = some (.ok cfg) → cfg.getKey "dependencies" = some deps →
      deps.getKey "kong_backend" = none →
      load_config w = .error msgMissingKongBackend) ∧
    (∀ w cfg deps kc, w.configFile = some (.ok cfg) → cfg.getKey "dependencies" = some deps →
      deps.getKey "kong_backend" = some kc → kc.getKey "version" = none →
      load_config w = .error (msgMissingKey "version")) ∧
    (∀ w cfg deps kc v, w.configFile = some (.ok cfg) → cfg.getKey "dependencies" = some deps →
      deps.getKey "kong_backend" = some kc → kc.getKey "version" = some v →
      kc.getKey "url_template" = none →
      load_config w = .error (msgMissingKey "url_template")) ∧
    ("dependencies".data <:+: msgMissingDependencies.data ∧
     "kong_backend".data <:+: msgMissingKongBackend.data ∧
     "version".data <:+: (msgMissingKey "version").data ∧
     "url_template".data <:+: (msgMissingKey "url_template").data) ∧
    List.Pairwise (· ≠ ·)
      [msgMissingDependencies, msgMissingKongBackend,
       msgMissingKey "version", msgMissingKey "url_template"] ∧
    (∀ e, msgMissingDependencies ≠ msgConfigRead e ∧
      msgMissingKongBackend ≠ msgConfigRead e ∧
      msgMissingKey "version" ≠ msgConfigRead e ∧
      msgMissingKey "url_template" ≠ msgConfigRead e) := by
  refine ⟨?_, ?_, ?_, ?_, ?_, ?_, ?_⟩
  · intro w cfg h1 h2
    simp [load_config, h1, h2]
  · intro w cfg deps h1 h2 h3
    simp [load_config, h1, h2, h3]
  · intro w cfg deps kc h1 h2 h3 h4
    simp [load_config, h1, h2, h3, h4]
  · intro w cfg deps kc v h1 h2 h3 h4 h5
    simp [load_config, h1, h2, h3, h4, h5]
  · refine ⟨?_, ?_, ?_, ?_⟩ <;> decide
  · decide
  · intro e
    refine ⟨?_, ?_, ?_, ?_⟩ <;>
      exact ne_msgConfigRead_of_not_prefix _ (by decide) e

/-- Concrete manifest object with no `dependencies` section. -/
def cfgNoDeps : Json := .obj [("name", .str "sns-kongswap-adaptor")]

/-- Concrete world whose `config.json` parses to `cfgNoDeps`. -/
def wNoDeps : World :=
  { icDirExists := true, revisionsFile := none,
    configFile := some (.ok cfgNoDeps), files := [], netOk := [] }

/-- Witness for C8: on a concrete manifest lacking `dependencies`,
`load_config` reports exactly the missing-section message, which differs
from a concrete generic parse-failure message. -/
theorem c8_load_config_errors_witness :
    load_config wNoDeps = .error msgMissingDependencies ∧
    msgMissingDependencies ≠ msgConfigRead "boom" :=
  ⟨c8_load_config_errors.1 wNoDeps cfgNoDeps rfl rfl,
   (c8_load_config_errors.2.2.2.2.2.2 "boom").1⟩

/-! ## ArtifactProvisioner — `download_mainnet_canisters` and
`download_kong_backend` from `scripts/common.py` (lines 106–187 and 224–253)

Each download function returns the list of URLs whose retrieval was
attempted (the network-fetch trace, recorded even when the retrieval fails)
together with either the updated world or the fatal error message.
`artifacts_dir.mkdir(exist_ok=True)` has no observable effect in this model.
-/

structure CanisterConfig where
  cdn_filename : String
  local_filename : String
  name : String
  deriving DecidableEq, Repr

def snsLedgerConfig : CanisterConfig :=
  ⟨"ic-icrc1-ledger.wasm.gz", "mainnet-sns-ledger.wasm.gz", "SNS Ledger"⟩

def icpLedgerConfig : CanisterConfig :=
  ⟨"ledger-canister.wasm.gz", "mainnet-icp-ledger.wasm.gz", "ICP Ledger"⟩

/-- The `canister_mapping` dict, in insertion (= iteration) order. -/
def canister_mapping : List (String × CanisterConfig) :=
  [("sns_ledger", snsLedgerConfig), ("ledger", icpLedgerConfig)]

def destPath (cfg : CanisterConfig) : String :=
  artifactsDir ++ "/" ++ cfg.local_filename

def cdnUrl (revision : String) (cdn_filename : String) : String :=
  "https://download.dfinity.systems/ic/" ++ revision ++ "/canisters/" ++ cdn_filename

def fsAdd (p : String) (w : World) : World := { w with files := p :: w.files }

def msgIcDirMissing : String := "Error: IC directory does not exist: " ++ icDir
def msgRevisionsMissing : String :=
  "Error: mainnet-canister-revisions.json not found: " ++ revisionsPath
def msgRevisionsRead (e : String) : String :=
  "Error reading mainnet-canister-revisions.json: " ++ e
def msgKeyNotFound (cfg : CanisterConfig) (key : String) : String :=
  "Error: " ++ cfg.name ++ " (key: " ++ key ++ ") not found in mainnet-canister-revisions.json"
def msgNoRev (cfg : CanisterConfig) : String :=
  "Error: No field `rev` found for " ++ cfg.name ++ " in mainnet-canister-revisions.json"
/-- Download-failure message; the interpolated exception text is omitted. -/
def msgDownloadError (name : String) : String := "Error downloading " ++ name

/-- One iteration of the `for canister_key, config in canister_mapping.items()`
loop: skip if the destination file already exists, then look the key up in the
revision index, require a truthy `rev` field, build the CDN URL and retrieve
it (`if not revision` also fires when `rev` maps to a falsy JSON value). -/
def download_one (revisions : Json) (key : String) (cfg : CanisterConfig) (w : World) :
    List String × Except String World :=
  if destPath cfg ∈ w.files then
    ([], .ok w)
  else
    match revisions.getKey key with
    | none => ([], .error (msgKeyNotFound cfg key))
    | some canister_info =>
      match canister_info.getKey "rev" with
      | none => ([], .error (msgNoRev cfg))
      | some rev =>
        if rev.falsy then ([], .error (msgNoRev cfg))
        else
          -- download_url = f-string of the CDN base, the revision, cdn_filename
          if cdnUrl rev.interp cfg.cdn_filename ∈ w.netOk then
            ([cdnUrl rev.interp cfg.cdn_filename], .ok (fsAdd (destPath cfg) w))
          else
            ([cdnUrl rev.interp cfg.cdn_filename], .error (msgDownloadError cfg.name))

/-- The download loop over the remaining descriptors, threading the world and
concatenating the fetch traces; a fatal error aborts the remaining
iterations. -/
def download_loop (revisions : Json) :
    List (String × CanisterConfig) → World → List String × Except String World
  | [], w => ([], .ok w)
  | (key, cfg) :: rest, w =>
    let (u1, r1) := download_one revisions key cfg w
    match r1 with
    | .error e => (u1, .error e)
    | .ok w1 =>
      let (u2, r2) := download_loop revisions rest w1
      (u1 ++ u2, r2)

/-- `download_mainnet_canisters(paths)`: require the IC checkout and its
revision index file, parse the index, then run the download loop over
`canister_mapping`. -/
def download_mainnet_canisters (w : World) : List String × Except String World :=
  if w.icDirExists then
    match w.revisionsFile with
    | none => ([], .error msgRevisionsMissing)
    | some (.error e) => ([], .error (msgRevisionsRead e))
    | some (.ok revisions) => download_loop revisions canister_mapping w
  else ([], .error msgIcDirMissing)

def kongDest : String := artifactsDir ++ "/kong_backend.wasm.gz"

/-- Left-to-right, non-overlapping replacement of `pattern` by `repl` on
character lists; the fuel argument (instantiated with the list length, an
upper bound on the number of steps) makes the recursion structural so that
it evaluates inside the kernel. -/
def substAux (pattern repl : List Char) : Nat → List Char → List Char
  | _, [] => []
  | 0, l => l
  | fuel + 1, c :: rest =>
    if pattern.isPrefixOf (c :: rest) then
      repl ++ substAux pattern repl fuel ((c :: rest).drop pattern.length)
    else
      c :: substAux pattern repl fuel rest

/-- The substitution performed by `url_template.format(version=version)`:
every occurrence of the `version` replacement field is replaced by the
rendered version value. -/
def pyFormatVersion (tpl version : String) : String :=
  ⟨substAux "{version}".data version.data tpl.data.length tpl.data⟩

/-- Stand-in for a Python exception that `download_kong_backend` does not
catch: the `dependencies`/`kong_backend`/`version`/`url_template` lookups
cannot fail after `load_config` validated them, and a non-string
`url_template` makes `.format` raise an uncaught `AttributeError`. -/
def msgKongUncaught : String := "Traceback: uncaught exception in download_kong_backend"

/-- `download_kong_backend(paths)`: load and validate `config.json` first,
then skip if the cached file exists, otherwise substitute the version into
the URL template and retrieve it. -/
def download_kong_backend (w : World) : List String × Except String World :=
  match load_config w with
  | .error e => ([], .error e)
  | .ok config =>
    if kongDest ∈ w.files then
      ([], .ok w)
    else
      match (config.getKey "dependencies").bind (·.getKey "kong_backend") with
      | none => ([], .error msgKongUncaught)
      | some kong_config =>
        match kong_config.getKey "version", kong_config.getKey "url_template" with
        | some version, some (.str tpl) =>
          -- download_url = url_template.format(version=version)
          if pyFormatVersion tpl version.interp ∈ w.netOk then
            ([pyFormatVersion tpl version.interp], .ok (fsAdd kongDest w))
          else
            ([pyFormatVersion tpl version.interp],
             .error (msgDownloadError "Kong Backend"))
        | _, _ => ([], .error msgKongUncaught)

/-- Helper: a cached destination makes one loop iteration a silent no-op. -/
theorem download_one_cached (revisions : Json) (key : String) (cfg : CanisterConfig)
    (w : World) (h : destPath cfg ∈ w.files) :
    download_one revisions key cfg w = ([], .ok w) := by
  simp [download_one, h]

/-- Helper: a successful loop iteration leaves the destination present, only
ever grows the file set, does not touch the other world components, and
fetches exactly one URL when the destination was absent (zero otherwise). -/
theorem download_one_ok (revisions : Json) (key : String) (cfg : CanisterConfig)
    (w w' : World) (us : List String)
    (h : download_one revisions key cfg w = (us, .ok w')) :
    destPath cfg ∈ w'.files ∧
    w'.icDirExists = w.icDirExists ∧ w'.revisionsFile = w.revisionsFile ∧
    w'.configFile = w.configFile ∧ w'.netOk = w.netOk ∧
    (∀ p ∈ w.files, p ∈ w'.files) ∧
    us.length = (if destPath cfg ∈ w.files then 0 else 1) := by
  unfold download_one at h
  split at h
  case isTrue hmem =>
    simp only [Prod.mk.injEq, Except.ok.injEq] at h
    obtain ⟨rfl, rfl⟩ := h
    exact ⟨hmem, rfl, rfl, rfl, rfl, fun p hp => hp, by simp [hmem]⟩
  case isFalse hmem =>
    split at h
    · simp at h
    · split at h
      · simp at h
      · split at h
        · simp at h
        · split at h
          · simp only [Prod.mk.injEq, Except.ok.injEq] at h
            obtain ⟨rfl, rfl⟩ := h
            refine ⟨List.mem_cons_self _ _, rfl, rfl, rfl, rfl,
              fun p hp => List.mem_cons_of_mem _ hp, by simp [hmem]⟩
          · simp at h

/-- Helper: when every destination in the descriptor list is already cached,
the loop is a silent no-op. -/
theorem download_loop_all_cached (revisions : Json)
    (l : List (String × CanisterConfig)) (w : World)
    (h : ∀ key cfg, (key, cfg) ∈ l → destPath cfg ∈ w.files) :
    download_loop revisions l w = ([], .ok w) := by
  induction l with
  | nil => rfl
  | cons kc rest ih =>
    obtain ⟨key, cfg⟩ := kc
    have hc := download_one_cached revisions key cfg w (h key cfg (List.mem_cons_self _ _))
    simp only [download_loop, hc]
    simp [ih fun k c hm => h k c (List.mem_cons_of_mem _ hm)]

/-- Helper: a successful run of the loop leaves every destination of the list
present, only grows the file set, and preserves the other world components. -/
theorem download_loop_ok (revisions : Json)
    (l : List (String × CanisterConfig)) (w w' : World) (us : List String)
    (h : download_loop revisions l w = (us, .ok w')) :
    w'.icDirExists = w.icDirExists ∧ w'.revisionsFile = w.revisionsFile ∧
    w'.configFile = w.configFile ∧ w'.netOk = w.netOk ∧
    (∀ p ∈ w.files, p ∈ w'.files) ∧
    (∀ key cfg, (key, cfg) ∈ l → destPath cfg ∈ w'.files) := by
  induction l generalizing w us with
  | nil =>
    simp only [download_loop, Prod.mk.injEq, Except.ok.injEq] at h
    obtain ⟨rfl, rfl⟩ := h
    exact ⟨rfl, rfl, rfl, rfl, fun p hp => hp, by simp⟩
  | cons kc rest ih =>
    obtain ⟨key, cfg⟩ := kc
    rw [download_loop] at h
    rcases h1 : download_one revisions key cfg w with ⟨u1, r1⟩
    rw [h1] at h
    rcases r1 with e | w1
    · simp at h
    · simp only at h
      rcases h2 : download_loop revisions rest w1 with ⟨u2, r2⟩
      rw [h2] at h
      rcases r2 with e2 | w2
      · simp at h
      · simp only [Prod.mk.injEq, Except.ok.injEq] at h
        obtain ⟨rfl, rfl⟩ := h
        obtain ⟨hdest, hic, hrev, hcfg, hnet, hgrow, _⟩ :=
          download_one_ok revisions key cfg w w1 u1 h1
        obtain ⟨iic, irev, icfg, inet, igrow, idest⟩ := ih w1 u2 h2
        refine ⟨iic.trans hic, irev.trans hrev, icfg.trans hcfg, inet.trans hnet,
          fun p hp => igrow p (hgrow p hp), ?_⟩
        intro k c hm
        rcases List.mem_cons.mp hm with hhead | htail
        · cases hhead
          exact igrow _ hdest
        · exact idest k c htail

/-- Helper: a successful loop iteration adds at most the destination file. -/
theorem download_one_files_bound (revisions : Json) (key : String)
    (cfg : CanisterConfig) (w w' : World) (us : List String)
    (h : download_one revisions key cfg w = (us, .ok w')) :
    ∀ p ∈ w'.files, p = destPath cfg ∨ p ∈ w.files := by
  unfold download_one at h
  split at h
  case isTrue hmem =>
    simp only [Prod.mk.injEq, Except.ok.injEq] at h
    obtain ⟨rfl, rfl⟩ := h
    exact fun p hp => Or.inr hp
  case isFalse hmem =>
    split at h
    · simp at h
    · split at h
      · simp at h
      · split at h
        · simp at h
        · split at h
          · simp only [Prod.mk.injEq, Except.ok.injEq] at h
            obtain ⟨rfl, rfl⟩ := h
            intro p hp
            rcases List.mem_cons.mp hp with hph | hpt
            · exact Or.inl hph
            · exact Or.inr hpt
          · simp at h

/-- Helper: a successful loop run over pairwise-distinct, all-absent
destinations attempts exactly one fetch per descriptor. -/
theorem download_loop_fresh_length (revisions : Json)
    (l : List (String × CanisterConfig)) (w w' : World) (us : List String)
    (hdisj : List.Pairwise (fun a b => destPath a.2 ≠ destPath b.2) l)
    (hmiss : ∀ key cfg, (key, cfg) ∈ l → destPath cfg ∉ w.files)
    (h : download_loop revisions l w = (us, .ok w')) :
    us.length = l.length := by
  induction l generalizing w us with
  | nil =>
    simp only [download_loop, Prod.mk.injEq, Except.ok.injEq] at h
    obtain ⟨rfl, rfl⟩ := h
    rfl
  | cons kc rest ih =>
    obtain ⟨key, cfg⟩ := kc
    rw [download_loop] at h
    rcases h1 : download_one revisions key cfg w with ⟨u1, r1⟩
    rw [h1] at h
    rcases r1 with e | w1
    · simp at h
    · simp only at h
      rcases h2 : download_loop revisions rest w1 with ⟨u2, r2⟩
      rw [h2] at h
      rcases r2 with e2 | w2
      · simp at h
      · simp only [Prod.mk.injEq, Except.ok.injEq] at h
        obtain ⟨rfl, rfl⟩ := h
        obtain ⟨_, _, _, _, _, _, hlen⟩ := download_one_ok revisions key cfg w w1 u1 h1
        have hm : destPath cfg ∉ w.files := hmiss key cfg (List.mem_cons_self _ _)
        rw [if_neg hm] at hlen
        have hbound := download_one_files_bound revisions key cfg w w1 u1 h1
        have hmiss1 : ∀ k c, (k, c) ∈ rest → destPath c ∉ w1.files := by
          intro k c hkc hin
          rcases hbound _ hin with heq | hold
          · exact (List.rel_of_pairwise_cons hdisj hkc) heq.symm
          · exact hmiss k c (List.mem_cons_of_mem _ hkc) hold
        have hrest := ih w1 u2 (List.Pairwise.of_cons hdisj) hmiss1 h2
        simp only [List.length_append, List.length_cons, hlen, hrest]
        omega

/-- C1: idempotence of the ensure operations.  (1) A loop iteration whose
destination file is already cached attempts no fetch and leaves the world
unchanged; (2) likewise for the manifest-versioned dependency when the
manifest is valid; (3, 4) after any successful run of
`download_mainnet_canisters` / `download_kong_backend`, running the same
operation again attempts no fetch and returns the same world; (5, 6) a
successful run starting with no cached destination attempts exactly one
fetch per dependency descriptor (two pinned-revision descriptors, one
manifest-versioned descriptor). -/
theorem c1_ensure_idempotent :
    (∀ w revisions key cfg, destPath cfg ∈ w.files →
      download_one revisions key cfg w = ([], .ok w)) ∧
    (∀ w config, load_config w = .ok config → kongDest ∈ w.files →
      download_kong_backend w = ([], .ok w)) ∧
    (∀ w w' us, download_mainnet_canisters w = (us, .ok w') →
      download_mainnet_canisters w' = ([], .ok w')) ∧
    (∀ w w' us, download_kong_backend w = (us, .ok w') →
      download_kong_backend w' = ([], .ok w')) ∧
    (∀ w w' us, (∀ key cfg, (key, cfg) ∈ canister_mapping → destPath cfg ∉ w.files) →
      download_mainnet_canisters w = (us, .ok w') → us.length = 2) ∧
    (∀ w w' us, kongDest ∉ w.files → download_kong_backend w = (us, .ok w') →
      us.length = 1) := by
  have hpair : List.Pairwise (fun a b => destPath a.2 ≠ destPath b.2) canister_mapping := by
    simp only [canister_mapping, List.pairwise_cons, List.mem_singleton,
      List.pairwise_singleton, List.not_mem_nil]
    refine ⟨?_, by simp⟩
    rintro b rfl
    decide
  refine ⟨?_, ?_, ?_, ?_, ?_, ?_⟩
  · intro w revisions key cfg h
    exact download_one_cached revisions key cfg w h
  · intro w config h1 h2
    simp [download_kong_backend, h1, h2]
  · intro w w' us h
    unfold download_mainnet_canisters at h ⊢
    split at h
    case isFalse => simp at h
    case isTrue hic =>
      rcases hrev : w.revisionsFile with _ | exc
      · rw [hrev] at h; simp at h
      · rcases exc with e | revisions
        · rw [hrev] at h; simp at h
        · rw [hrev] at h
          obtain ⟨hic2, hrev2, _, _, _, hdests⟩ :=
            download_loop_ok revisions canister_mapping w w' us h
          rw [if_pos (show w'.icDirExists = true from hic2.trans hic),
            hrev2.trans hrev]
          exact download_loop_all_cached revisions canister_mapping w' hdests
  · intro w w' us h
    unfold download_kong_backend at h
    rcases hc : load_config w with e | config
    · rw [hc] at h; simp at h
    · rw [hc] at h
      simp only at h
      by_cases hm : kongDest ∈ w.files
      · rw [if_pos hm] at h
        simp only [Prod.mk.injEq, Except.ok.injEq] at h
        obtain ⟨rfl, rfl⟩ := h
        simp [download_kong_backend, hc, hm]
      · rw [if_neg hm] at h
        split at h
        · simp at h
        · split at h
          · split at h
            · simp only [Prod.mk.injEq, Except.ok.injEq] at h
              obtain ⟨rfl, rfl⟩ := h
              have hc' : load_config (fsAdd kongDest w) = .ok config := hc
              have hm' : kongDest ∈ (fsAdd kongDest w).files :=
                List.mem_cons_self _ _
              simp [download_kong_backend, hc', hm']
            · simp at h
          · simp at h
  · intro w w' us hmiss h
    unfold download_mainnet_canisters at h
    split at h
    case isFalse => simp at h
    case isTrue hic =>
      rcases hrev : w.revisionsFile with _ | exc
      · rw [hrev] at h; simp at h
      · rcases exc with e | revisions
        · rw [hrev] at h; simp at h
        · rw [hrev] at h
          exact download_loop_fresh_length revisions canister_mapping w w' us
            hpair hmiss h
  · intro w w' us hm h
    unfold download_kong_backend at h
    rcases hc : load_config w with e | config
    · rw [hc] at h; simp at h
    · rw [hc] at h
      simp only at h
      rw [if_neg hm] at h
      split at h
      · simp at h
      · split at h
        · split at h
          · simp only [Prod.mk.injEq, Except.ok.injEq] at h
            obtain ⟨rfl, rfl⟩ := h
            rfl
          · simp at h
        · simp at h

/-! ### Concrete provisioning scenarios -/

def kongTemplate : String :=
  "https://github.com/KongSwap/kong/releases/download/{version}/kong_backend.wasm.gz"

def sampleKongUrl : String :=
  "https://github.com/KongSwap/kong/releases/download/v1/kong_backend.wasm.gz"

def sampleRevisions : Json := .obj
  [("sns_ledger", .obj [("rev", .str "r1"), ("sha256", .str "d1")]),
   ("ledger", .obj [("rev", .str "r2"), ("sha256", .str "d2")])]

def sampleConfig : Json := .obj
  [("dependencies", .obj
     [("kong_backend", .obj
        [("version", .str "v1"), ("url_template", .str kongTemplate)])])]

/-- A world with an empty artifact cache and a working network. -/
def wFresh : World :=
  { icDirExists := true,
    revisionsFile := some (.ok sampleRevisions),
    configFile := some (.ok sampleConfig),
    files := [],
    netOk := [cdnUrl "r1" "ic-icrc1-ledger.wasm.gz",
              cdnUrl "r2" "ledger-canister.wasm.gz",
              sampleKongUrl] }

/-- `wFresh` after a successful `download_mainnet_canisters` run. -/
def wFetched : World :=
  { wFresh with files := [destPath icpLedgerConfig, destPath snsLedgerConfig] }

/-- `wFetched` after a successful `download_kong_backend` run. -/
def wKongFetched : World := { wFetched with files := kongDest :: wFetched.files }

/-- Witness for C1: on a concrete fresh world the first run fetches exactly
one URL per descriptor and the immediate rerun of either operation fetches
nothing and leaves the world unchanged. -/
theorem c1_ensure_idempotent_witness :
    download_mainnet_canisters wFresh =
      ([cdnUrl "r1" "ic-icrc1-ledger.wasm.gz", cdnUrl "r2" "ledger-canister.wasm.gz"],
       .ok wFetched) ∧
    download_mainnet_canisters wFetched = ([], .ok wFetched) ∧
    download_kong_backend wFetched = ([sampleKongUrl], .ok wKongFetched) ∧
    download_kong_backend wKongFetched = ([], .ok wKongFetched) ∧
    [cdnUrl "r1" "ic-icrc1-ledger.wasm.gz", cdnUrl "r2" "ledger-canister.wasm.gz"].length = 2 ∧
    [sampleKongUrl].length = 1 ∧
    download_one sampleRevisions "sns_ledger" snsLedgerConfig wFetched = ([], .ok wFetched) :=
  ⟨rfl,
   c1_ensure_idempotent.2.2.1 wFresh wFetched
     [cdnUrl "r1" "ic-icrc1-ledger.wasm.gz", cdnUrl "r2" "ledger-canister.wasm.gz"] rfl,
   rfl,
   c1_ensure_idempotent.2.2.2.1 wFetched wKongFetched [sampleKongUrl] rfl,
   c1_ensure_idempotent.2.2.2.2.1 wFresh wFetched
     [cdnUrl "r1" "ic-icrc1-ledger.wasm.gz", cdnUrl "r2" "ledger-canister.wasm.gz"]
     (fun _ _ _ => List.not_mem_nil _) rfl,
   c1_ensure_idempotent.2.2.2.2.2 wFetched wKongFetched [sampleKongUrl]
     (by decide) rfl,
   c1_ensure_idempotent.1 wFetched sampleRevisions "sns_ledger" snsLedgerConfig
     (by decide)⟩

/-- C3: a pinned-revision dependency whose revision-index entry has no truthy
`rev` field makes its ensure step fail with the error message naming the
dependency, with an empty fetch trace (no network request attempted for it);
run end to end for the first descriptor, the whole command fails the same way
with an empty fetch trace; and the message does contain the dependency
name. -/
theorem c3_missing_rev_fails_before_fetch :
    (∀ w revisions key cfg entry, destPath cfg ∉ w.files →
      revisions.getKey key = some entry →
      (entry.getKey "rev" = none ∨
        ∃ rev, entry.getKey "rev" = some rev ∧ rev.falsy = true) →
      download_one revisions key cfg w = ([], .error (msgNoRev cfg))) ∧
    (∀ w revisions entry, w.icDirExists = true →
      w.revisionsFile = some (.ok revisions) →
      destPath snsLedgerConfig ∉ w.files →
      revisions.getKey "sns_ledger" = some entry →
      entry.getKey "rev" = none →
      download_mainnet_canisters w = ([], .error (msgNoRev snsLedgerConfig))) ∧
    (∀ cfg : CanisterConfig, cfg.name.data <:+: (msgNoRev cfg).data) := by
  have hone : ∀ w revisions key cfg entry, destPath cfg ∉ w.files →
      revisions.getKey key = some entry →
      (entry.getKey "rev" = none ∨
        ∃ rev, entry.getKey "rev" = some rev ∧ rev.falsy = true) →
      download_one revisions key cfg w = ([], .error (msgNoRev cfg)) := by
    intro w revisions key cfg entry h1 h2 h3
    rcases h3 with h3 | ⟨rev, h3, h4⟩
    · simp [download_one, h1, h2, h3]
    · simp [download_one, h1, h2, h3, h4]
  refine ⟨hone, ?_, ?_⟩
  · intro w revisions entry hic hrev hmiss hkey hnorev
    unfold download_mainnet_canisters
    rw [if_pos hic, hrev]
    have h1 := hone w revisions "sns_ledger" snsLedgerConfig entry hmiss hkey
      (Or.inl hnorev)
    simp [canister_mapping, download_loop, h1]
  · intro cfg
    refine ⟨"Error: No field `rev` found for ".data,
      " in mainnet-canister-revisions.json".data, ?_⟩
    simp [msgNoRev, String.data_append]

/-- Revision index whose `sns_ledger` entry lacks the `rev` field. -/
def badRevisions : Json := .obj
  [("sns_ledger", .obj [("sha256", .str "d1")]),
   ("ledger", .obj [("rev", .str "r2")])]

/-- World holding `badRevisions`, with an empty cache. -/
def wBadRev : World :=
  { icDirExists := true, revisionsFile := some (.ok badRevisions),
    configFile := none, files := [], netOk := [] }

/-- Witness for C3: on the concrete index whose `sns_ledger` entry has no
`rev`, provisioning fails naming the SNS Ledger and attempts no fetch. -/
theorem c3_missing_rev_fails_before_fetch_witness :
    download_mainnet_canisters wBadRev = ([], .error (msgNoRev snsLedgerConfig)) ∧
    "SNS Ledger".data <:+: (msgNoRev snsLedgerConfig).data :=
  ⟨c3_missing_rev_fails_before_fetch.2.1 wBadRev badRevisions
     (.obj [("sha256", .str "d1")]) rfl rfl (List.not_mem_nil _) rfl rfl,
   c3_missing_rev_fails_before_fetch.2.2 snsLedgerConfig⟩

/-- C10: `download_kong_backend` validates `config.json` before checking the
cache, so a manifest that fails to load is fatal even when
`kong_backend.wasm.gz` is already cached; by contrast the pinned-revision
path checks the cache before consulting the per-dependency index entries, so
with every destination cached it succeeds without a fetch whatever those
entries contain. -/
theorem c10_kong_config_before_cache :
    (∀ w e, kongDest ∈ w.files → load_config w = .error e →
      download_kong_backend w = ([], .error e)) ∧
    (∀ w revisions, w.icDirExists = true → w.revisionsFile = some (.ok revisions) →
      (∀ key cfg, (key, cfg) ∈ canister_mapping → destPath cfg ∈ w.files) →
      download_mainnet_canisters w = ([], .ok w)) := by
  constructor
  · intro w e _ h2
    simp [download_kong_backend, h2]
  · intro w revisions hic hrev hall
    unfold download_mainnet_canisters
    rw [if_pos hic, hrev]
    exact download_loop_all_cached revisions canister_mapping w hall

/-- World with a fully populated cache but a manifest lacking the
`dependencies` section, and a revision index whose entries are unusable. -/
def wBadConfigCached : World :=
  { icDirExists := true, revisionsFile := some (.ok badRevisions),
    configFile := some (.ok cfgNoDeps),
    files := [kongDest, destPath snsLedgerConfig, destPath icpLedgerConfig],
    netOk := [] }

/-- Witness for C10: with the cache fully populated, the manifest-versioned
path still fails on the invalid manifest while the pinned-revision path
succeeds without a fetch despite its unusable index entries. -/
theorem c10_kong_config_before_cache_witness :
    download_kong_backend wBadConfigCached = ([], .error msgMissingDependencies) ∧
    download_mainnet_canisters wBadConfigCached = ([], .ok wBadConfigCached) :=
  ⟨c10_kong_config_before_cache.1 wBadConfigCached msgMissingDependencies
     (List.mem_cons_self _ _) rfl,
   c10_kong_config_before_cache.2 wBadConfigCached badRevisions rfl rfl
     (by
       intro key cfg hm
       simp only [canister_mapping, List.mem_cons, List.not_mem_nil, or_false,
         Prod.mk.injEq] at hm
       rcases hm with ⟨rfl, rfl⟩ | ⟨rfl, rfl⟩ <;> decide)⟩

/-! ## BuildPipeline — `main` from `scripts/build.py` (lines 40–109)

External process outcomes (cargo, the two ic-wasm invocations, the
compression write) are explicit world flags; the file set threads through
the pipeline: the metadata step writes the augmented artifact, the optimize
step rewrites it in place, the compression step writes the published
artifact, and `augmented_wasm.unlink()` removes the augmented intermediate.
-/

def wasmDir : String := projectDir ++ "/target/wasm32-unknown-unknown/release"
def candidPath : String := projectDir ++ "/kongswap_adaptor/kongswap-adaptor.did"
def originalWasm : String := wasmDir ++ "/kongswap-adaptor-canister.wasm"
def augmentedWasm : String := wasmDir ++ "/augmented-kongswap-adaptor-canister.wasm"
def finalCompressed : String := wasmDir ++ "/kongswap-adaptor-canister.wasm.gz"

def fsRemove (p : String) (fs : List String) : List String := fs.filter (fun q => q != p)

structure BuildWorld where
  projectDirExists : Bool
  cargoOk : Bool
  wasmDirExists : Bool
  candidExists : Bool
  files : List String
  icWasmMetadataOk : Bool
  icWasmOptimizeOk : Bool
  compressOk : Bool

def msgBuildProjectDirMissing : String :=
  "Error: Project directory does not exist: " ++ projectDir
def msgCargoBuildFailed : String := "Error running command: cargo build"
def msgWasmDirMissing : String :=
  "Error: WASM directory does not exist after build: " ++ wasmDir
def msgCandidMissing : String := "Error: Candid file does not exist: " ++ candidPath
def msgOriginalMissing : String :=
  "Error: Original WASM file does not exist after build: " ++ originalWasm
def msgMetadataFailed : String := "Error running command: ic-wasm metadata"
def msgOptimizeFailed : String := "Error running command: ic-wasm optimize"
def msgCompressFailed : String := "Unexpected error: compression failed"

/-- The build pipeline: validate, compile, inject metadata (writing the
augmented artifact), optimize in place, compress into the published
artifact, then delete the augmented intermediate; a failure at any stage
aborts with that stage's message, leaving the files written so far in
place.  On success, returns the resulting file set. -/
def build_main (w : BuildWorld) : Except String (List String) :=
  if ¬ w.projectDirExists then .error msgBuildProjectDirMissing
  else if ¬ w.cargoOk then .error msgCargoBuildFailed
  else if ¬ w.wasmDirExists then .error msgWasmDirMissing
  else if ¬ w.candidExists then .error msgCandidMissing
  else if originalWasm ∉ w.files then .error msgOriginalMissing
  else if ¬ w.icWasmMetadataOk then .error msgMetadataFailed
  else if ¬ w.icWasmOptimizeOk then .error msgOptimizeFailed
  else if ¬ w.compressOk then .error msgCompressFailed
  else .ok (fsRemove augmentedWasm (finalCompressed :: augmentedWasm :: w.files))

/-- C6: after every successful pipeline run the augmented intermediate no
longer exists in the resulting file set, while the published artifact
does. -/
theorem c6_augmented_never_persists (w : BuildWorld) (fs : List String)
    (h : build_main w = .ok fs) :
    augmentedWasm ∉ fs ∧ finalCompressed ∈ fs := by
  unfold build_main at h
  split at h
  · simp at h
  split at h
  · simp at h
  split at h
  · simp at h
  split at h
  · simp at h
  split at h
  · simp at h
  split at h
  · simp at h
  split at h
  · simp at h
  split at h
  · simp at h
  simp only [Except.ok.injEq] at h
  subst h
  constructor
  · intro hmem
    have := (List.mem_filter.mp hmem).2
    simp at this
  · refine List.mem_filter.mpr ⟨List.mem_cons_self _ _, ?_⟩
    decide

/-- Fully healthy build world holding only the raw compiled artifact. -/
def wBuildOk : BuildWorld :=
  { projectDirExists := true, cargoOk := true, wasmDirExists := true,
    candidExists := true, files := [originalWasm],
    icWasmMetadataOk := true, icWasmOptimizeOk := true, compressOk := true }

/-- Witness for C6: on the concrete healthy world, the pipeline succeeds and
the resulting file set contains the published artifact but not the
augmented intermediate. -/
theorem c6_augmented_never_persists_witness :
    augmentedWasm ∉ [finalCompressed, originalWasm] ∧
    finalCompressed ∈ [finalCompressed, originalWasm] :=
  c6_augmented_never_persists wBuildOk [finalCompressed, originalWasm] rfl

/-! ## Compression — `compress_file` from `scripts/build.py` (lines 34–38)

`compress_file` copies the input byte stream through
`gzip.open(output_path, "wb", compresslevel=9)`.  The CPython `GzipFile`
writer emits
* a 10-byte header: magic `1f 8b`, method 8 (deflate), a flags byte with
  only FNAME set (the output file name is known), the current time as a
  32-bit little-endian mtime (`time.time()`, since no explicit mtime is
  passed), XFL 2 (level 9), and OS byte 255 ("unknown");
* the FNAME field: the Latin-1 bytes of the output base name minus its
  `.gz` extension, NUL-terminated;
* the raw DEFLATE stream of the payload produced by zlib at level 9 —
  zlib is an external collaborator, so the DEFLATE transform is an explicit
  function parameter here (for a fixed input it is a fixed byte string);
* an 8-byte trailer: the CRC-32 of the payload and the payload length,
  both 32-bit little-endian.
Bytes are `Nat`s below 256; the current time enters as an explicit
parameter, which is exactly how run-to-run nondeterminism reaches the
archive bytes.
-/

def le32 (n : Nat) : List Nat :=
  [n % 256, n / 256 % 256, n / 65536 % 256, n / 16777216 % 256]

/-- One CRC-32 bit round: shift right, conditionally xor the reversed
polynomial. -/
def crc32Round (c : Nat) : Nat :=
  if c % 2 = 1 then Nat.xor (c / 2) 0xEDB88320 else c / 2

/-- Fold one byte into the CRC-32 accumulator. -/
def crc32Byte (c b : Nat) : Nat := crc32Round^[8] (Nat.xor c b)

/-- CRC-32 (the `zlib.crc32` checksum written by the gzip trailer). -/
def crc32 (data : List Nat) : Nat :=
  Nat.xor (data.foldl (fun c b => crc32Byte c (b % 256)) 0xFFFFFFFF) 0xFFFFFFFF

/-- FNAME bytes: the output base name minus the `.gz` extension. -/
def gzipFname : List Nat := "kongswap-adaptor-canister.wasm".data.map Char.toNat

/-- The 10-byte fixed header plus the NUL-terminated FNAME field; the flags
byte is FNAME = 8, XFL is 2 because `compresslevel=9`, the OS byte is 255. -/
def gzipHeader (mtime : Nat) : List Nat :=
  [0x1f, 0x8b, 8, 8] ++ le32 (mtime % 4294967296) ++ [2, 255] ++ gzipFname ++ [0]

/-- `compress_file(input_path, output_path)` viewed as a function of the
input bytes, the DEFLATE transform, and the wall-clock time `now` at which
the run happens. -/
def compress_file (deflate : List Nat → List Nat) (now : Nat) (data : List Nat) :
    List Nat :=
  gzipHeader now ++ deflate data ++ le32 (crc32 data) ++
    le32 (data.length % 4294967296)

/-- Stand-in instance for the abstract DEFLATE parameter, used only to
state closed facts whose truth does not depend on the transform (the C5
divergence lies entirely in the gzip header). -/
def idBytes : List Nat → List Nat := fun bs => bs

/-- Helper: `le32` determines its argument modulo 2^32. -/
theorem le32_inj (a b : Nat) (ha : a < 4294967296) (hb : b < 4294967296)
    (h : le32 a = le32 b) : a = b := by
  simp only [le32, List.cons.injEq, and_true] at h
  omega

/-- C5 counterexample: two runs of `compress_file` on the identical (empty)
payload at wall-clock times 0 and 1 produce different archive bytes, and
the mtime field of the second archive is not zeroed. -/
theorem c5_determinism_counterexample :
    compress_file idBytes 0 [] ≠ compress_file idBytes 1 [] ∧
    ((compress_file idBytes 1 []).drop 4).take 4 ≠ [0, 0, 0, 0] := by
  constructor <;> decide

/-- C5 (amended): the archive bytes are a function of the payload, the
DEFLATE transform and the run's wall-clock second: runs at the same time
(mod 2^32) coincide byte for byte, runs at different times (mod 2^32)
always differ; bytes 4–7 of the archive hold the run time, not zeroes,
and the OS byte is the constant 255 while the magic/method/flags prefix is
fixed. -/
theorem c5_compress_deterministic_amended :
    (∀ deflate t1 t2 data, t1 % 4294967296 = t2 % 4294967296 →
      compress_file deflate t1 data = compress_file deflate t2 data) ∧
    (∀ deflate t1 t2 data, t1 % 4294967296 ≠ t2 % 4294967296 →
      compress_file deflate t1 data ≠ compress_file deflate t2 data) ∧
    (∀ deflate t data,
      ((compress_file deflate t data).drop 4).take 4 = le32 (t % 4294967296)) ∧
    (∀ deflate t data,
      (compress_file deflate t data).take 4 = [0x1f, 0x8b, 8, 8] ∧
      ((compress_file deflate t data).drop 8).take 2 = [2, 255]) := by
  have hmt : ∀ (deflate : List Nat → List Nat) t data,
      ((compress_file deflate t data).drop 4).take 4 = le32 (t % 4294967296) := by
    intro deflate t data
    simp [compress_file, gzipHeader, le32, List.cons_append, List.nil_append]
  refine ⟨?_, ?_, hmt, ?_⟩
  · intro deflate t1 t2 data h
    simp [compress_file, gzipHeader, h]
  · intro deflate t1 t2 data h heq
    apply h
    apply le32_inj _ _ (Nat.mod_lt _ (by omega)) (Nat.mod_lt _ (by omega))
    rw [← hmt deflate t1 data, ← hmt deflate t2 data, heq]
  · intro deflate t data
    constructor <;>
      simp [compress_file, gzipHeader, le32, List.cons_append, List.nil_append]

/-- Witness for C5 (amended) at concrete inputs: equal seconds mod 2^32
reproduce the archive, a one-second difference changes it, and the mtime
field holds the time. -/
theorem c5_compress_deterministic_amended_witness :
    compress_file idBytes 0 [] = compress_file idBytes 4294967296 [] ∧
    compress_file idBytes 0 [] ≠ compress_file idBytes 1 [] ∧
    ((compress_file idBytes 5 []).drop 4).take 4 = le32 (5 % 4294967296) :=
  ⟨c5_compress_deterministic_amended.1 idBytes 0 4294967296 [] (by decide),
   c5_compress_deterministic_amended.2.1 idBytes 0 1 [] (by decide),
   c5_compress_deterministic_amended.2.2.1 idBytes 5 []⟩

/-! ### Decompression (the reader side of the round-trip law)

The CPython `GzipFile` reader on a single-member archive: check the magic
and method bytes, skip mtime/XFL/OS, skip the NUL-terminated FNAME field
when the FNAME flag is set (the writer sets no other optional field),
inflate the body and verify the 8-byte CRC-32/length trailer.  On the
single-member archives the writer produces, the DEFLATE stream ends exactly
eight bytes before the end of the file, so the body/trailer split at
`length - 8` matches the reader's stream-driven behaviour.
-/

/-- Skip the NUL-terminated FNAME field. -/
def dropThroughZero : List Nat → List Nat
  | [] => []
  | 0 :: rest => rest
  | _ :: rest => dropThroughZero rest

/-- Inflate the member body and verify the trailer. -/
def gunzipBody (inflate : List Nat → List Nat) (rest : List Nat) :
    Option (List Nat) :=
  if rest.length < 8 then none
  else
    if rest.drop (rest.length - 8) =
        le32 (crc32 (inflate (rest.take (rest.length - 8)))) ++
        le32 ((inflate (rest.take (rest.length - 8))).length % 4294967296) then
      some (inflate (rest.take (rest.length - 8)))
    else none

/-- Parse the gzip container and return the decompressed payload. -/
def gunzip (inflate : List Nat → List Nat) (archive : List Nat) :
    Option (List Nat) :=
  match archive with
  | m1 :: m2 :: cm :: flg :: _ :: _ :: _ :: _ :: _ :: _ :: rest =>
    if m1 = 31 ∧ m2 = 139 ∧ cm = 8 then
      gunzipBody inflate (if flg.testBit 3 then dropThroughZero rest else rest)
    else none
  | _ => none

/-- Helper: skipping the NUL-terminated FNAME field recovers what follows
whenever the name itself contains no NUL byte. -/
theorem dropThroughZero_append (l : List Nat) (h : ∀ b ∈ l, b ≠ 0)
    (tail : List Nat) : dropThroughZero (l ++ 0 :: tail) = tail := by
  induction l with
  | nil => rfl
  | cons b bs ih =>
    have hb : b ≠ 0 := h b (List.mem_cons_self _ _)
    cases b with
    | zero => exact absurd rfl hb
    | succ n =>
      show dropThroughZero (bs ++ 0 :: tail) = tail
      exact ih fun x hx => h x (List.mem_cons_of_mem _ hx)

/-- C7: for every payload byte stream and run time, decompressing the
archive written by `compress_file` recovers the payload byte for byte,
provided the abstract DEFLATE/INFLATE pair round-trips (zlib's documented
contract for its compress/decompress streams). -/
theorem c7_gzip_roundtrip (deflate inflate : List Nat → List Nat)
    (hinv : ∀ bs, inflate (deflate bs) = bs) (data : List Nat) (now : Nat) :
    gunzip inflate (compress_file deflate now data) = some data := by
  have harch : compress_file deflate now data =
      31 :: 139 :: 8 :: 8 :: (now % 4294967296 % 256) ::
      (now % 4294967296 / 256 % 256) :: (now % 4294967296 / 65536 % 256) ::
      (now % 4294967296 / 16777216 % 256) :: 2 :: 255 ::
      (gzipFname ++ 0 :: (deflate data ++
        (le32 (crc32 data) ++ le32 (data.length % 4294967296)))) := by
    simp [compress_file, gzipHeader, le32]
  have hfn : ∀ b ∈ gzipFname, b ≠ 0 := by decide
  have h8 : (8 : Nat).testBit 3 = true := by decide
  rw [harch]
  simp only [gunzip, h8, if_true, and_self, if_pos]
  rw [dropThroughZero_append gzipFname hfn]
  unfold gunzipBody
  have htr : (le32 (crc32 data) ++ le32 (data.length % 4294967296)).length = 8 := by
    simp [le32]
  have hlen : (deflate data ++
      (le32 (crc32 data) ++ le32 (data.length % 4294967296))).length
      = (deflate data).length + 8 := by
    simp [List.length_append, htr]
  rw [hlen, Nat.add_sub_cancel, List.take_left, List.drop_left, hinv]
  rw [if_neg (by omega), if_pos rfl]

/-- Witness for C7 at a concrete payload and time, with the identity
codec pair discharging the DEFLATE/INFLATE round-trip hypothesis. -/
theorem c7_gzip_roundtrip_witness :
    gunzip idBytes (compress_file idBytes 7 [1, 2, 3]) = some [1, 2, 3] :=
  c7_gzip_roundtrip idBytes idBytes (fun _ => rfl) [1, 2, 3] 7

/-! ## TestRunner — `main` from `scripts/test.py` (lines 29–96)

The run is summarised by the ordered trace of its externally observable
stage actions plus the process exit code (0 on success; every
`sys.exit(1)` path yields 1).  `subprocess.run(..., check=True)` on the
cargo test command raises on a non-zero exit, and the handler prints and
calls `sys.exit(1)` — the underlying test exit code itself is not
propagated.
-/

structure TestArgs where
  force_rebuild : Bool
  unit_only : Bool
  integration_only : Bool
  verbose : Bool
  test_name : Option String
  nocapture : Bool
  deriving DecidableEq, Repr

inductive Action where
  | checkedRebuild
  | ranBuildScript
  | provisionedMainnet
  | provisionedKong
  | ranTests (cmd : List String)
  deriving DecidableEq, Repr

structure TestWorld where
  projectDirExists : Bool
  buildScriptExists : Bool
  srcFiles : List SrcFile
  targetMtime : Option Int
  buildOk : Bool
  prov : World
  testExit : Nat

/-- The composed `cargo test` command line. -/
def cargo_test_cmd (args : TestArgs) : List String :=
  ["cargo", "test"] ++
  (if args.verbose then ["--verbose"] else []) ++
  (if args.unit_only then ["--bin", "kongswap-adaptor-canister"]
   else if args.integration_only then ["--test", "e2e"] else []) ++
  (match args.test_name with | some n => [n] | none => []) ++
  (if args.nocapture then ["--", "--nocapture"] else [])

/-- Final stage: run the external test process; exit 0 when it exits 0,
otherwise print the failure and exit 1. -/
def runTestsStage (args : TestArgs) (w : TestWorld) (acc : List Action) :
    List Action × Nat :=
  (acc ++ [Action.ranTests (cargo_test_cmd args)],
   if w.testExit == 0 then 0 else 1)

/-- `get_test_environment`: ensure the two pinned-revision canisters and the
manifest-versioned Kong backend; a failure inside either ensure call exits
the process with code 1 before tests run. -/
def provisionStage (args : TestArgs) (w : TestWorld) (acc : List Action) :
    List Action × Nat :=
  match (download_mainnet_canisters w.prov).2 with
  | .error _ => (acc ++ [Action.provisionedMainnet], 1)
  | .ok prov1 =>
    match (download_kong_backend prov1).2 with
    | .error _ => (acc ++ [Action.provisionedMainnet, Action.provisionedKong], 1)
    | .ok _ =>
      runTestsStage args w (acc ++ [Action.provisionedMainnet, Action.provisionedKong])

/-- `main()` of the test command.  When `--unit-only` is set, the rebuild
check, the build script and provisioning are all skipped.  In
`args.force_rebuild or needs_rebuild(...)` the `or` short-circuits, so the
mtime scan runs (and is recorded) only when the flag is unset. -/
def test_main (args : TestArgs) (w : TestWorld) : List Action × Nat :=
  if ¬ w.projectDirExists then ([], 1)
  else if args.unit_only then
    runTestsStage args w []
  else if ¬ w.buildScriptExists then ([], 1)
  else if args.force_rebuild then
    if ¬ w.buildOk then ([Action.ranBuildScript], 1)
    else provisionStage args w [Action.ranBuildScript]
  else if needs_rebuild w.srcFiles w.targetMtime then
    if ¬ w.buildOk then ([Action.checkedRebuild, Action.ranBuildScript], 1)
    else provisionStage args w [Action.checkedRebuild, Action.ranBuildScript]
  else
    provisionStage args w [Action.checkedRebuild]

/-- Concrete flag set: `--unit-only` alone. -/
def unitOnlyArgs : TestArgs :=
  { force_rebuild := false, unit_only := true, integration_only := false,
    verbose := false, test_name := none, nocapture := false }

/-- World whose test process exits with code 5 (and whose build inputs are
all broken, irrelevant under `--unit-only`). -/
def wTestExit5 : TestWorld :=
  { projectDirExists := true, buildScriptExists := false, srcFiles := [],
    targetMtime := none, buildOk := false, prov := wBadRev, testExit := 5 }

/-- C4 counterexample: a run in which the external test process exits with
code 5 makes the test command exit with code 1, not 5 — the exit code is
not propagated unchanged. -/
theorem c4_exit_code_counterexample :
    wTestExit5.testExit = 5 ∧
    test_main unitOnlyArgs wTestExit5 =
      ([Action.ranTests (cargo_test_cmd unitOnlyArgs)], 1) ∧
    (test_main unitOnlyArgs wTestExit5).2 ≠ wTestExit5.testExit := by
  refine ⟨rfl, rfl, by decide⟩

/-- C4 (amended): whenever the external test process is actually invoked,
the command's exit code is 0 when the test process exits 0 and exactly 1
when it exits non-zero — the non-zero exit code itself is not propagated. -/
theorem c4_exit_code_amended (args : TestArgs) (w : TestWorld)
    (tr : List Action) (code : Nat) (cmd : List String)
    (h : test_main args w = (tr, code)) (hmem : Action.ranTests cmd ∈ tr) :
    code = if w.testExit == 0 then 0 else 1 := by
  have hrun : ∀ acc, runTestsStage args w acc = (tr, code) →
      code = if w.testExit == 0 then 0 else 1 := by
    intro acc hh
    unfold runTestsStage at hh
    simp only [Prod.mk.injEq] at hh
    exact hh.2.symm
  have hprov : ∀ acc, provisionStage args w acc = (tr, code) →
      (Action.provisionedKong ∉ acc ∧ Action.provisionedMainnet ∉ acc) →
      (∀ c, Action.ranTests c ∉ acc) →
      code = if w.testExit == 0 then 0 else 1 := by
    intro acc hh _ hacc
    unfold provisionStage at hh
    split at hh
    · simp only [Prod.mk.injEq] at hh
      obtain ⟨rfl, rfl⟩ := hh
      rcases List.mem_append.mp hmem with hl | hr
      · exact absurd hl (hacc cmd)
      · simp at hr
    · split at hh
      · simp only [Prod.mk.injEq] at hh
        obtain ⟨rfl, rfl⟩ := hh
        rcases List.mem_append.mp hmem with hl | hr
        · exact absurd hl (hacc cmd)
        · simp at hr
      · exact hrun _ hh
  unfold test_main at h
  split at h
  · simp only [Prod.mk.injEq] at h
    obtain ⟨rfl, rfl⟩ := h
    simp at hmem
  split at h
  · exact hrun [] h
  split at h
  · simp only [Prod.mk.injEq] at h
    obtain ⟨rfl, rfl⟩ := h
    simp at hmem
  split at h
  · split at h
    · simp only [Prod.mk.injEq] at h
      obtain ⟨rfl, rfl⟩ := h
      simp at hmem
    · exact hprov _ h (by simp) (by simp)
  split at h
  · split at h
    · simp only [Prod.mk.injEq] at h
      obtain ⟨rfl, rfl⟩ := h
      simp at hmem
    · exact hprov _ h (by simp) (by simp)
  · exact hprov _ h (by simp) (by simp)

/-- Witness for C4 (amended) at the concrete failing run: the command's
exit code equals the 0-vs-1 collapse of the test exit code 5, namely 1. -/
theorem c4_exit_code_amended_witness :
    (test_main unitOnlyArgs wTestExit5).2 =
      if wTestExit5.testExit == 0 then 0 else 1 :=
  c4_exit_code_amended unitOnlyArgs wTestExit5
    [Action.ranTests (cargo_test_cmd unitOnlyArgs)] 1
    (cargo_test_cmd unitOnlyArgs) rfl (List.mem_cons_self _ _)

/-- C9: with `--unit-only` set (and the project directory present, the only
check that precedes the flag dispatch), the run's trace is exactly one
invocation of the test process: no rebuild check, no build script, no
provisioning — regardless of whether the published artifact, the build
script, the manifest or the revision index exist. -/
theorem c9_unit_only_skips (args : TestArgs) (w : TestWorld)
    (hu : args.unit_only = true) (hp : w.projectDirExists = true) :
    test_main args w =
      ([Action.ranTests (cargo_test_cmd args)],
        if w.testExit == 0 then 0 else 1) ∧
    Action.checkedRebuild ∉ (test_main args w).1 ∧
    Action.ranBuildScript ∉ (test_main args w).1 ∧
    Action.provisionedMainnet ∉ (test_main args w).1 ∧
    Action.provisionedKong ∉ (test_main args w).1 ∧
    Action.ranTests (cargo_test_cmd args) ∈ (test_main args w).1 := by
  have he : test_main args w =
      ([Action.ranTests (cargo_test_cmd args)],
        if w.testExit == 0 then 0 else 1) := by
    simp [test_main, hp, hu, runTestsStage]
  refine ⟨he, ?_, ?_, ?_, ?_, ?_⟩ <;> rw [he] <;> simp

/-- World for the C9 scenario: no published artifact (so a rebuild would be
required), no build script, and broken provisioning inputs — none of which
a unit-only run touches. -/
def wUnitOnly : TestWorld :=
  { projectDirExists := true, buildScriptExists := false,
    srcFiles := [SrcFile.mk "lib.rs" 99], targetMtime := none,
    buildOk := false, prov := wBadRev, testExit := 0 }

/-- Witness for C9 on the concrete world with no published artifact: the
unit-only run still consists of exactly the test invocation and succeeds. -/
theorem c9_unit_only_skips_witness :
    test_main unitOnlyArgs wUnitOnly =
      ([Action.ranTests (cargo_test_cmd unitOnlyArgs)],
        if wUnitOnly.testExit == 0 then 0 else 1) ∧
    Action.checkedRebuild ∉ (test_main unitOnlyArgs wUnitOnly).1 ∧
    Action.ranBuildScript ∉ (test_main unitOnlyArgs wUnitOnly).1 ∧
    Action.provisionedMainnet ∉ (test_main unitOnlyArgs wUnitOnly).1 ∧
    Action.provisionedKong ∉ (test_main unitOnlyArgs wUnitOnly).1 ∧
    Action.ranTests (cargo_test_cmd unitOnlyArgs) ∈
      (test_main unitOnlyArgs wUnitOnly).1 :=
  c9_unit_only_skips unitOnlyArgs wUnitOnly rfl rfl

end KongswapScripts
